import Mathlib

/-!
Verification of the event-page logic of the atrium-jazz repository
(src/src/app/event/[slug]/page.tsx): the Eastern-time offset resolver,
the structured-data start/end instant builders, the upcoming-events
window filter, and the not-found / metadata paths.

Machine dates are modelled explicitly: a JS Date value is a pair of a
day index and a minute-of-day, and the relevant JS Date methods
(getHours, getMinutes, setMinutes with its normalization carry) are
embedded directly.  Event date strings (YYYY-MM-DD) are ordered the
same way lexicographically and chronologically, so the Prisma string
comparisons on dateString are modelled as comparisons of day indices.
-/

/-- page.tsx lines 18-22, getETOffset.  The two environment reads
(dateObj.getTimezoneOffset() and the January 1st offset
new Date(dateObj.getFullYear(), 0, 1).getTimezoneOffset()) are passed
in as parameters, in the JS convention (minutes that local time is
behind UTC). -/
def getETOffset (offAtDate offAtJan1 : Int) : String :=
  if offAtDate < offAtJan1 then "-04:00" else "-05:00"

/-- A JS Date value, reduced to what the event page reads from it: a
day index (days since an arbitrary epoch) and a minute of the day. -/
structure JSDate where
  day : Nat
  minuteOfDay : Nat
deriving DecidableEq

/-- Build a JS Date from a day index and a (possibly overflowing)
minute count, normalizing the overflow into the day, as the JS Date
component setters do. -/
def mkJSDate (day minutes : Nat) : JSDate :=
  ⟨day + minutes / 1440, minutes % 1440⟩

/-- JS Date.prototype.getHours (local hour of day). -/
def JSDate.getHours (d : JSDate) : Nat := d.minuteOfDay / 60

/-- JS Date.prototype.getMinutes (local minute of hour). -/
def JSDate.getMinutes (d : JSDate) : Nat := d.minuteOfDay % 60

/-- JS Date.prototype.setMinutes: replaces the minutes component,
normalizing an overflow into the hours and the day. -/
def JSDate.setMinutes (d : JSDate) (m : Nat) : JSDate :=
  mkJSDate d.day (d.minuteOfDay / 60 * 60 + m)

/-- JS String.prototype.padStart(2, char zero). -/
def padStart2 (s : String) : String :=
  if s.length ≥ 2 then s else String.mk (List.replicate (2 - s.length) '0') ++ s

/-- JS String.prototype.padStart(4, char zero), as the yyyy field of
the date-fns format pattern behaves. -/
def padStart4 (s : String) : String :=
  if s.length ≥ 4 then s else String.mk (List.replicate (4 - s.length) '0') ++ s

/-- JS String.prototype.split on a single separator character. -/
def splitChars (sep : Char) : List Char → List (List Char)
  | [] => [[]]
  | c :: rest =>
    if c == sep then [] :: splitChars sep rest
    else
      match splitChars sep rest with
      | [] => [[c]]
      | x :: xs => (c :: x) :: xs

/-- JS Number(s) on a string of decimal digits. -/
def jsNumber (l : List Char) : Nat :=
  l.foldl (fun a c => 10 * a + (c.toNat - 48)) 0

/-- page.tsx line 204: setTimes entry split on the colon and the two
components converted with Number.  Only applied to HH:MM clock
strings; the fallback arms cover list shapes the page never produces. -/
def parseHM (t : String) : Nat × Nat :=
  match (splitChars ':' t.data).map jsNumber with
  | h :: m :: _ => (h, m)
  | [h] => (h, 0)
  | [] => (0, 0)

/-- The local calendar components that the external zone-aware
formatter resolves for an instant in America/New_York. -/
structure NYComponents where
  year : Nat
  month : Nat
  dayOfMonth : Nat
  hour : Nat
  minute : Nat
  second : Nat
  offset : String
deriving DecidableEq

/-- Modelled from the spec: the external zone-aware formatter
(date-fns-tz formatInTimeZone) applied with the format pattern given
at page.tsx line 201, which renders year-month-day, a literal T,
hour:minute:second and the zone offset, each numeric field zero-padded
to its width.  The zone conversion itself (instant to New York local
components) is not reimplemented; it enters as the NYComponents
argument. -/
def formatNY (c : NYComponents) : String :=
  padStart4 (Nat.repr c.year) ++ "-" ++ padStart2 (Nat.repr c.month) ++ "-" ++
    padStart2 (Nat.repr c.dayOfMonth) ++ "T" ++ padStart2 (Nat.repr c.hour) ++ ":" ++
    padStart2 (Nat.repr c.minute) ++ ":" ++ padStart2 (Nat.repr c.second) ++ c.offset

/-- page.tsx lines 199-201, the startDate of the JSON-LD event.  The
day argument is the day index that parsing the dateString yields; the
nyConvert argument is the external zone conversion feeding the
formatter in the no-set-times branch. -/
def buildStartDate (dateString : String) (day : Nat) (setTimes : List String)
    (offAtDate offAtJan1 : Int) (nyConvert : JSDate → NYComponents) : String :=
  if setTimes.length > 0 then
    dateString ++ "T" ++ setTimes.headD "" ++ ":00" ++ getETOffset offAtDate offAtJan1
  else
    formatNY (nyConvert (mkJSDate day 0))

/-- page.tsx lines 202-209, the endDate of the JSON-LD event: the last
set time is split into hours and minutes, a Date is built on the
event day, 90 minutes are added through setMinutes, and the output
string reuses the event dateString with the resulting hour and minute,
each padded to two digits, and the resolved offset. -/
def buildEndDate (dateString : String) (day : Nat) (setTimes : List String)
    (offAtDate offAtJan1 : Int) : Option String :=
  if setTimes.length > 0 then
    let hm := parseHM ((setTimes.getLast?).getD "")
    let endTime0 := mkJSDate day (hm.1 * 60 + hm.2)
    let endTime := endTime0.setMinutes (endTime0.getMinutes + 90)
    some (dateString ++ "T" ++ padStart2 (Nat.repr endTime.getHours) ++ ":" ++
      padStart2 (Nat.repr endTime.getMinutes) ++ ":00" ++ getETOffset offAtDate offAtJan1)
  else
    none

/-- One of the other events of the artist, as selected by the query at
page.tsx lines 131-157: its slug and its date (day index of the
YYYY-MM-DD dateString). -/
structure OEvent where
  slug : String
  date : Nat
deriving DecidableEq

/-- Milliseconds per day, as in the cutoff computation
DAYS_AHEAD * 24 * 60 * 60 * 1000 at page.tsx lines 148 and 338. -/
def msPerDay : Nat := 86400000

/-- The where clause of the artist events sub-query, page.tsx lines
145-153: dateString at least the current UTC date, strictly before
the UTC date of now plus the look-ahead, and slug different from the
slug of the page being viewed.  nowMs is Date.now() in milliseconds. -/
def artistEventsWhere (nowMs daysAhead : Nat) (viewedSlug : String) (e : OEvent) : Bool :=
  decide (nowMs / msPerDay ≤ e.date) &&
    decide (e.date < (nowMs + daysAhead * msPerDay) / msPerDay) &&
    decide (e.slug ≠ viewedSlug)

/-- The ascending dateString ordering of page.tsx lines 154-156. -/
def dateOrder (a b : OEvent) : Prop := a.date ≤ b.date

instance : DecidableRel dateOrder := fun a b => Nat.decLe a.date b.date

instance : IsTotal OEvent dateOrder := ⟨fun a b => Nat.le_total a.date b.date⟩

instance : IsTrans OEvent dateOrder := ⟨fun _ _ _ => Nat.le_trans⟩

/-- The artist events sub-query, page.tsx lines 131-157: the where
clause applied to the events of the artist, ordered by dateString
ascending (a stable sort on the date key). -/
def artistEventsQuery (all : List OEvent) (nowMs daysAhead : Nat) (viewedSlug : String) :
    List OEvent :=
  (all.filter (artistEventsWhere nowMs daysAhead viewedSlug)).insertionSort dateOrder

/-- The predicate of the More Dates filter, page.tsx lines 336-340:
new Date(dateString), which is midnight UTC of the event date, is at
most the cutoff instant now plus the look-ahead in milliseconds. -/
def moreDatesPred (nowMs daysAhead : Nat) (e : OEvent) : Bool :=
  decide (e.date * msPerDay ≤ nowMs + daysAhead * msPerDay)

/-- The More Dates filter step itself, page.tsx lines 336-340. -/
def moreDatesFilter (events : List OEvent) (nowMs daysAhead : Nat) : List OEvent :=
  events.filter (moreDatesPred nowMs daysAhead)

/-- The full More Dates pipeline: the sub-query result passed through
the render-time filter. -/
def moreDates (all : List OEvent) (nowMs daysAhead : Nat) (viewedSlug : String) :
    List OEvent :=
  moreDatesFilter (artistEventsQuery all nowMs daysAhead viewedSlug) nowMs daysAhead

/-- The output set exactly as claim C1 words it: the sublist of events
whose date is at most now plus the horizon, excluding the viewed slug
(no lower bound on the date). -/
def claimedWindowSublist (all : List OEvent) (nowMs daysAhead : Nat) (viewedSlug : String) :
    List OEvent :=
  all.filter (fun e =>
    decide (e.date ≤ (nowMs + daysAhead * msPerDay) / msPerDay) && decide (e.slug ≠ viewedSlug))

/-- The amended window sublist: events dated between the current date
(inclusive) and the date of now plus the horizon (exclusive), viewed
slug excluded. -/
def amendedWindowSublist (all : List OEvent) (nowMs daysAhead : Nat) (viewedSlug : String) :
    List OEvent :=
  all.filter (fun e =>
    decide (nowMs / msPerDay ≤ e.date) &&
      decide (e.date < nowMs / msPerDay + daysAhead) && decide (e.slug ≠ viewedSlug))

/-- The view model the page hands to the rendering layer: the two
structured-data instants and the filtered More Dates list. -/
structure EventView where
  startDate : String
  endDate : Option String
  moreDatesList : List OEvent
deriving DecidableEq

/-- Outcome of rendering the page for one request. -/
inductive PageResult (α : Type) where
  | notFound : PageResult α
  | rendered : α → PageResult α

/-- The event record as fetched for the page, reduced to the fields
the modelled logic reads.  artistEvents is the artist events sub-query
result delivered inside the record. -/
structure EventRec where
  slug : String
  name : String
  dateString : String
  day : Nat
  setTimes : List String
  artistEvents : List OEvent

/-- page.tsx lines 112-209, the rendering core: a missing record
(lines 188-190) signals not found and nothing else is computed; a
present record is mapped to the view model. -/
def renderPage (fetched : Option EventRec) (nowMs daysAhead : Nat)
    (offAtDate offAtJan1 : Int) (nyConvert : JSDate → NYComponents) : PageResult EventView :=
  match fetched with
  | none => PageResult.notFound
  | some e =>
    PageResult.rendered
      { startDate := buildStartDate e.dateString e.day e.setTimes offAtDate offAtJan1 nyConvert
        endDate := buildEndDate e.dateString e.day e.setTimes offAtDate offAtJan1
        moreDatesList := moreDatesFilter e.artistEvents nowMs daysAhead }

/-- The metadata object of generateMetadata, page.tsx lines 96-109;
every field is optional and the empty object leaves all of them
absent. -/
structure SiteMetadata where
  title : Option String
  description : Option String
  ogTitle : Option String
  ogDescription : Option String
  ogUrl : Option String
  twitterCard : Option String
  twitterTitle : Option String
  twitterDescription : Option String
deriving DecidableEq

/-- The empty metadata object returned at page.tsx line 94. -/
def emptyMetadata : SiteMetadata :=
  ⟨none, none, none, none, none, none, none, none⟩

/-- The event record generateMetadata selects, page.tsx lines 73-92. -/
structure MetaEventRec where
  name : String
  logline : Option String
  artistName : Option String
  venueName : String

/-- JS truthiness fallback a || b on optional strings: an absent value
and the empty string both fall back. -/
def jsOrElse (v : Option String) (fallback : String) : String :=
  match v with
  | some s => if s = "" then fallback else s
  | none => fallback

/-- The description template used in all three metadata slots,
page.tsx lines 98, 101 and 107. -/
def eventDescription (e : MetaEventRec) : String :=
  jsOrElse e.logline
    ("Join " ++ jsOrElse e.artistName "us" ++ " at " ++ e.venueName ++
      " for an unforgettable jazz experience.")

/-- page.tsx lines 71-110, generateMetadata: a missing record yields
the empty metadata object, a present record yields the templated
metadata. -/
def generateMetadataModel (fetched : Option MetaEventRec) (slug : String) : SiteMetadata :=
  match fetched with
  | none => emptyMetadata
  | some e =>
    { title := some (e.name ++ " at " ++ e.venueName ++ " | Atrium Jazz")
      description := some (eventDescription e)
      ogTitle := some (e.name ++ " at " ++ e.venueName ++ " | Atrium Jazz")
      ogDescription := some (eventDescription e)
      ogUrl := some ("https://www.atriumjazz.com/event/" ++ slug)
      twitterCard := some "summary_large_image"
      twitterTitle := some (e.name ++ " at " ++ e.venueName ++ " | Atrium Jazz")
      twitterDescription := some (eventDescription e) }

/-- Test for a decimal digit character. -/
def isDigitChar (c : Char) : Bool := decide ('0' ≤ c) && decide (c ≤ '9')

/-- Numeric value of a digit character. -/
def digitVal (c : Char) : Nat := c.toNat - 48

/-- Exactly two digit characters. -/
def twoDigitsL : List Char → Bool
  | [a, b] => isDigitChar a && isDigitChar b
  | _ => false

/-- Numeric value of a two-digit character field. -/
def twoValL : List Char → Nat
  | [a, b] => 10 * digitVal a + digitVal b
  | _ => 0

/-- Exactly four digit characters. -/
def fourDigitsL : List Char → Bool
  | [a, b, c, d] => isDigitChar a && isDigitChar b && isDigitChar c && isDigitChar d
  | _ => false

/-- Shape and range check for a YYYY-MM-DD calendar date, as the
events store their dateString. -/
def validDateChars : List Char → Bool
  | [y1, y2, y3, y4, s1, mo1, mo2, s2, d1, d2] =>
    isDigitChar y1 && isDigitChar y2 && isDigitChar y3 && isDigitChar y4 &&
      s1 == '-' && s2 == '-' &&
      isDigitChar mo1 && isDigitChar mo2 && isDigitChar d1 && isDigitChar d2 &&
      decide (1 ≤ 10 * digitVal mo1 + digitVal mo2) &&
      decide (10 * digitVal mo1 + digitVal mo2 ≤ 12) &&
      decide (1 ≤ 10 * digitVal d1 + digitVal d2) &&
      decide (10 * digitVal d1 + digitVal d2 ≤ 31)
  | _ => false

/-- Shape and range check for an HH:MM clock component. -/
def validTimeChars : List Char → Bool
  | [h1, h2, c, m1, m2] =>
    isDigitChar h1 && isDigitChar h2 && c == ':' && isDigitChar m1 && isDigitChar m2 &&
      decide (10 * digitVal h1 + digitVal h2 < 24) &&
      decide (10 * digitVal m1 + digitVal m2 < 60)
  | _ => false

/-- An HH:MM clock string, as the set-times are stored. -/
def validHHMM (s : String) : Bool := validTimeChars s.data

/-- Shape and range check for a numeric UTC offset suffix such as
-05:00. -/
def validOffsetChars : List Char → Bool
  | [sg, h1, h2, c, m1, m2] =>
    (sg == '+' || sg == '-') && isDigitChar h1 && isDigitChar h2 && c == ':' &&
      isDigitChar m1 && isDigitChar m2 &&
      decide (10 * digitVal h1 + digitVal h2 < 24) &&
      decide (10 * digitVal m1 + digitVal m2 < 60)
  | _ => false

/-- A valid ISO-8601 instant with an explicit numeric offset:
YYYY-MM-DDTHH:MM:SS followed by a sign and an HH:MM offset. -/
def validISOChars : List Char → Bool
  | y1 :: y2 :: y3 :: y4 :: s1 :: mo1 :: mo2 :: s2 :: d1 :: d2 :: t :: h1 :: h2 :: c1 ::
      mi1 :: mi2 :: c2 :: sec1 :: sec2 :: off =>
    validDateChars [y1, y2, y3, y4, s1, mo1, mo2, s2, d1, d2] && t == 'T' &&
      validTimeChars [h1, h2, c1, mi1, mi2] && c2 == ':' && isDigitChar sec1 &&
      isDigitChar sec2 && decide (10 * digitVal sec1 + digitVal sec2 < 60) &&
      validOffsetChars off
  | _ => false

/-- A valid ISO-8601 instant string with explicit offset. -/
def validISOInstant (s : String) : Bool := validISOChars s.data

/-- The minute field of an ISO instant string (characters 14 and 15)
is exactly two digit characters, so minutes are zero-padded to two
digits. -/
def minuteFieldTwoDigits (s : String) : Bool :=
  decide (((s.data.drop 14).take 2).length = 2) && ((s.data.drop 14).take 2).all isDigitChar

/-- Claim C3 counterexample: the claim says the daylight string is
returned exactly when the offset of the date differs from the offset
of January 1st.  With the date offset -600 and the January offset
-660 (a host environment whose January 1st is in daylight saving, as
in the southern hemisphere) the two offsets differ and yet the
resolver returns the standard string, so the stated equivalence fails
at this concrete input. -/
theorem c3_counterexample :
    ¬ (getETOffset (-600) (-660) = "-04:00" ↔ ((-600 : Int) ≠ -660)) := by
  decide

/-- Claim C3 (amended): for every pair of environment offset reads the
resolver returns one of exactly the two strings, and it returns the
daylight string if and only if the offset of the date is strictly less
than the offset observed on January 1st of the same year. -/
theorem c3_offset_resolver (offAtDate offAtJan1 : Int) :
    (getETOffset offAtDate offAtJan1 = "-04:00" ∨ getETOffset offAtDate offAtJan1 = "-05:00")
      ∧ (getETOffset offAtDate offAtJan1 = "-04:00" ↔ offAtDate < offAtJan1) := by
  unfold getETOffset
  by_cases h : offAtDate < offAtJan1
  · rw [if_pos h]
    exact ⟨Or.inl rfl, ⟨fun _ => h, fun _ => rfl⟩⟩
  · rw [if_neg h]
    refine ⟨Or.inr rfl, ⟨fun hh => absurd hh (by decide), fun hh => absurd hh h⟩⟩

/-- Claim C6: for an event whose set-times list is empty, the start
instant is midnight of the event day converted through the zone-aware
formatter for America/New_York, and no end instant is produced. -/
theorem c6_no_set_times (ds : String) (day : Nat) (oD oJ : Int)
    (nyConvert : JSDate → NYComponents) :
    buildStartDate ds day [] oD oJ nyConvert = formatNY (nyConvert (mkJSDate day 0))
      ∧ buildEndDate ds day [] oD oJ = none :=
  ⟨rfl, rfl⟩

/-- Key computation lemma for the end instant: on a nonempty set-times
list whose last entry parses to the clock time h:m, the builder yields
the event date, the clock time h:m plus ninety minutes carried across
the hour boundary and wrapped at twenty-four hours, and the resolved
offset.  It shows the JS Date normalization equals plain
minutes-since-midnight arithmetic. -/
lemma buildEndDate_eq (ds : String) (day : Nat) (ts : List String) (oD oJ : Int) (h m : Nat)
    (hne : ts ≠ []) (hp : parseHM ((ts.getLast?).getD "") = (h, m)) (hh : h < 24)
    (hm : m < 60) :
    buildEndDate ds day ts oD oJ
      = some (ds ++ "T" ++ padStart2 (Nat.repr ((h * 60 + m + 90) / 60 % 24)) ++ ":" ++
          padStart2 (Nat.repr ((h * 60 + m + 90) % 60)) ++ ":00" ++ getETOffset oD oJ) := by
  unfold buildEndDate
  rw [if_pos (List.length_pos.mpr hne)]
  dsimp only
  rw [hp]
  have e0 : mkJSDate day (h * 60 + m) = ⟨day, h * 60 + m⟩ := by
    simp only [mkJSDate, JSDate.mk.injEq]
    omega
  rw [e0]
  have e1 : JSDate.setMinutes ⟨day, h * 60 + m⟩ (JSDate.getMinutes ⟨day, h * 60 + m⟩ + 90)
      = mkJSDate day (h * 60 + m + 90) := by
    simp only [JSDate.setMinutes, JSDate.getMinutes, mkJSDate, JSDate.mk.injEq]
    omega
  rw [e1]
  have e2 : (mkJSDate day (h * 60 + m + 90)).getHours = (h * 60 + m + 90) / 60 % 24 := by
    simp only [mkJSDate, JSDate.getHours]
    omega
  have e3 : (mkJSDate day (h * 60 + m + 90)).getMinutes = (h * 60 + m + 90) % 60 := by
    simp only [mkJSDate, JSDate.getMinutes]
    omega
  rw [e2, e3]

/-- Claim C5: for an event whose last set-time is 23:15, the end
instant rolls the clock over to 00:45 while the date component of the
string stays the event date itself, with no day adjustment. -/
theorem c5_midnight_rollover (ds : String) (day : Nat) (oD oJ : Int) :
    buildEndDate ds day ["23:15"] oD oJ = some (ds ++ "T00:45:00" ++ getETOffset oD oJ) := by
  rw [buildEndDate_eq ds day ["23:15"] oD oJ 23 15 (by decide) (by decide) (by decide)
    (by decide)]
  refine congrArg some ?_
  have hp1 : padStart2 (Nat.repr ((23 * 60 + 15 + 90) / 60 % 24)) = "00" := by decide
  have hp2 : padStart2 (Nat.repr ((23 * 60 + 15 + 90) % 60)) = "45" := by decide
  rw [hp1, hp2]
  apply String.ext
  simp only [String.data_append]
  have h1 : "T".data = ['T'] := by decide
  have h2 : "00".data = ['0', '0'] := by decide
  have h3 : ":".data = [':'] := by decide
  have h4 : "45".data = ['4', '5'] := by decide
  have h5 : ":00".data = [':', '0', '0'] := by decide
  have h6 : "T00:45:00".data = ['T', '0', '0', ':', '4', '5', ':', '0', '0'] := by decide
  simp [h1, h2, h3, h4, h5, h6]

/-- Claim C2: with a nonempty set-times list whose last entry is the
clock time h:m, the end instant is the event date combined with the
clock time h:m plus ninety minutes, the carry across the hour boundary
(and the twenty-four hour wrap) applied by calendar arithmetic, with
the resolved Eastern offset appended. -/
theorem c2_end_instant (ds : String) (day : Nat) (ts : List String) (oD oJ : Int) (h m : Nat)
    (hne : ts ≠ []) (hp : parseHM ((ts.getLast?).getD "") = (h, m)) (hh : h < 24)
    (hm : m < 60) :
    buildEndDate ds day ts oD oJ
      = some (ds ++ "T" ++ padStart2 (Nat.repr ((h * 60 + m + 90) / 60 % 24)) ++ ":" ++
          padStart2 (Nat.repr ((h * 60 + m + 90) % 60)) ++ ":00" ++ getETOffset oD oJ) :=
  buildEndDate_eq ds day ts oD oJ h m hne hp hh hm

/-- Witness for C2, instantiating the scenario of the spec: set-times
20:00 and 21:30 yield the end instant 23:00 on the same date with the
resolved offset. -/
theorem c2_witness :
    (parseHM (((["20:00", "21:30"] : List String).getLast?).getD "") = (21, 30)
        ∧ 21 < 24 ∧ 30 < 60)
      ∧ buildEndDate "2025-01-15" 20103 ["20:00", "21:30"] 300 300
          = some "2025-01-15T23:00:00-05:00" := by
  refine ⟨⟨by decide, by decide, by decide⟩, ?_⟩
  rw [c2_end_instant "2025-01-15" 20103 ["20:00", "21:30"] 300 300 21 30 (by decide)
    (by decide) (by decide) (by decide)]
  decide

/-- Claim C7: the More Dates list never contains an event whose slug
equals the slug of the page being viewed. -/
theorem c7_excludes_viewed (all : List OEvent) (nowMs daysAhead : Nat) (viewedSlug : String)
    (e : OEvent) (he : e ∈ moreDates all nowMs daysAhead viewedSlug) :
    e.slug ≠ viewedSlug := by
  unfold moreDates moreDatesFilter at he
  have h1 : e ∈ artistEventsQuery all nowMs daysAhead viewedSlug := (List.mem_filter.mp he).1
  unfold artistEventsQuery at h1
  have h2 : e ∈ all.filter (artistEventsWhere nowMs daysAhead viewedSlug) :=
    (List.perm_insertionSort dateOrder _).subset h1
  have h3 := (List.mem_filter.mp h2).2
  unfold artistEventsWhere at h3
  simp only [Bool.and_eq_true, decide_eq_true_eq] at h3
  exact h3.2

/-- Witness for C7 at a concrete input on which the More Dates list is
nonempty. -/
theorem c7_witness : (OEvent.mk "x" 20000).slug ≠ "y" :=
  c7_excludes_viewed [⟨"x", 20000⟩] (20000 * msPerDay) 1 "y" ⟨"x", 20000⟩ (by decide)

/-- Claim C8: on a date-sorted input the More Dates output is ordered
ascending by date, the filter step always preserves relative order (it
yields a sublist of whatever list it is given), and the full pipeline
output is a sublist of the input, so events with equal dates keep
their stable relative order. -/
theorem c8_order_preservation (all : List OEvent) (nowMs daysAhead : Nat) (viewedSlug : String)
    (hs : all.Pairwise dateOrder) :
    (moreDates all nowMs daysAhead viewedSlug).Pairwise dateOrder
      ∧ (∀ events : List OEvent, List.Sublist (moreDatesFilter events nowMs daysAhead) events)
      ∧ List.Sublist (moreDates all nowMs daysAhead viewedSlug) all := by
  refine ⟨?_, fun events => List.filter_sublist _, ?_⟩
  · have h1 : (artistEventsQuery all nowMs daysAhead viewedSlug).Pairwise dateOrder :=
      List.sorted_insertionSort dateOrder _
    exact h1.sublist (List.filter_sublist _)
  · have h2 : List.Sublist (all.filter (artistEventsWhere nowMs daysAhead viewedSlug)) all :=
      List.filter_sublist _
    have h3 : (all.filter (artistEventsWhere nowMs daysAhead viewedSlug)).Pairwise dateOrder :=
      hs.sublist h2
    have h4 : artistEventsQuery all nowMs daysAhead viewedSlug
        = all.filter (artistEventsWhere nowMs daysAhead viewedSlug) :=
      List.Sorted.insertionSort_eq h3
    unfold moreDates moreDatesFilter
    rw [h4]
    exact (List.filter_sublist _).trans h2

/-- Witness for C8 at a concrete sorted input. -/
theorem c8_witness :
    (moreDates [⟨"a", 20000⟩, ⟨"b", 20010⟩] (20000 * msPerDay) 30 "z").Pairwise dateOrder
      ∧ (∀ events : List OEvent,
          List.Sublist (moreDatesFilter events (20000 * msPerDay) 30) events)
      ∧ List.Sublist (moreDates [⟨"a", 20000⟩, ⟨"b", 20010⟩] (20000 * msPerDay) 30 "z")
          [⟨"a", 20000⟩, ⟨"b", 20010⟩] :=
  c8_order_preservation [⟨"a", 20000⟩, ⟨"b", 20010⟩] (20000 * msPerDay) 30 "z" (by decide)

/-- Claim C1 counterexample: the claim describes the output as exactly
the events dated at most now plus the horizon with a different slug,
with no lower bound; a past-dated event with a different slug is in
that described set but the pipeline drops it, because the query also
requires the date to be at least the current date. -/
theorem c1_counterexample :
    moreDates [⟨"past-event", 19990⟩] (20000 * msPerDay) 30 "other"
      ≠ claimedWindowSublist [⟨"past-event", 19990⟩] (20000 * msPerDay) 30 "other" := by
  decide

/-- Claim C1 (amended): on a date-sorted input the More Dates pipeline
returns exactly the sublist of events whose date is at least the
current date and strictly before the date of now plus the horizon,
excluding the viewed slug. -/
theorem c1_window_filter (all : List OEvent) (nowMs daysAhead : Nat) (viewedSlug : String)
    (hs : all.Pairwise dateOrder) :
    moreDates all nowMs daysAhead viewedSlug
      = amendedWindowSublist all nowMs daysAhead viewedSlug := by
  have h2 : List.Sublist (all.filter (artistEventsWhere nowMs daysAhead viewedSlug)) all :=
    List.filter_sublist _
  have h3 : (all.filter (artistEventsWhere nowMs daysAhead viewedSlug)).Pairwise dateOrder :=
    hs.sublist h2
  unfold moreDates artistEventsQuery moreDatesFilter amendedWindowSublist
  rw [List.Sorted.insertionSort_eq h3, List.filter_filter]
  apply List.filter_congr
  intro e he
  unfold artistEventsWhere moreDatesPred
  simp only [← Bool.decide_and, decide_eq_decide]
  have hdiv : (nowMs + daysAhead * msPerDay) / msPerDay = nowMs / msPerDay + daysAhead :=
    Nat.add_mul_div_right nowMs daysAhead (by decide)
  rw [hdiv]
  constructor
  · rintro ⟨_, h⟩
    exact h
  · intro h
    refine ⟨?_, h⟩
    obtain ⟨⟨_, hlt⟩, _⟩ := h
    have hq : nowMs / msPerDay * msPerDay ≤ nowMs := Nat.div_mul_le_self nowMs msPerDay
    unfold msPerDay at *
    omega

/-- Witness for C1 (amended), instantiating the scenario of the spec:
events dated today, today plus ten and today plus forty, a thirty-day
horizon, the viewed event dated today; only the event dated today plus
ten is returned. -/
theorem c1_witness :
    ([⟨"ev-today", 20000⟩, ⟨"ev-plus10", 20010⟩, ⟨"ev-plus40", 20040⟩] : List OEvent).Pairwise
        dateOrder
      ∧ moreDates [⟨"ev-today", 20000⟩, ⟨"ev-plus10", 20010⟩, ⟨"ev-plus40", 20040⟩]
            (20000 * msPerDay + 3600000) 30 "ev-today"
          = amendedWindowSublist [⟨"ev-today", 20000⟩, ⟨"ev-plus10", 20010⟩, ⟨"ev-plus40", 20040⟩]
              (20000 * msPerDay + 3600000) 30 "ev-today"
      ∧ amendedWindowSublist [⟨"ev-today", 20000⟩, ⟨"ev-plus10", 20010⟩, ⟨"ev-plus40", 20040⟩]
            (20000 * msPerDay + 3600000) 30 "ev-today"
          = [⟨"ev-plus10", 20010⟩] :=
  ⟨by decide,
    c1_window_filter [⟨"ev-today", 20000⟩, ⟨"ev-plus10", 20010⟩, ⟨"ev-plus40", 20040⟩]
      (20000 * msPerDay + 3600000) 30 "ev-today" (by decide),
    by decide⟩

/-- Claim C9: when the data fetch returns an absent value for the
requested slug, the rendering core signals not found; nothing else is
computed for that request, so there is no retry and no fallback
data. -/
theorem c9_missing_record_not_found (fetch : String → Option EventRec) (slug : String)
    (nowMs daysAhead : Nat) (oD oJ : Int) (nyConvert : JSDate → NYComponents)
    (h : fetch slug = none) :
    renderPage (fetch slug) nowMs daysAhead oD oJ nyConvert = PageResult.notFound := by
  rw [h]
  rfl

/-- Witness for C9 with a fetch layer that has no records. -/
theorem c9_witness :
    renderPage ((fun _ => none) "missing-slug") 0 30 300 300
        (fun _ => ⟨2025, 1, 1, 0, 0, 0, "-05:00"⟩)
      = PageResult.notFound :=
  c9_missing_record_not_found (fun _ => none) "missing-slug" 0 30 300 300
    (fun _ => ⟨2025, 1, 1, 0, 0, 0, "-05:00"⟩) rfl

/-- Claim C10: when no event record exists for the requested slug, the
metadata generator returns the empty metadata object; its result type
has no not-found or error outcome, so the not-found signal can only
come from the page rendering path. -/
theorem c10_metadata_empty_on_missing (fetch : String → Option MetaEventRec) (slug : String)
    (h : fetch slug = none) :
    generateMetadataModel (fetch slug) slug = emptyMetadata := by
  rw [h]
  rfl

/-- Witness for C10 with a fetch layer that has no records. -/
theorem c10_witness :
    generateMetadataModel ((fun _ => none) "missing-slug") "missing-slug" = emptyMetadata :=
  c10_metadata_empty_on_missing (fun _ => none) "missing-slug" rfl

set_option maxRecDepth 4000 in
lemma padStart2_repr : ∀ n : Nat, n < 100 →
    twoDigitsL (padStart2 (Nat.repr n)).data = true
      ∧ twoValL (padStart2 (Nat.repr n)).data = n := by
  decide

lemma digitChar_digit : ∀ k : Nat, k < 10 → isDigitChar (Nat.digitChar k) = true := by
  decide

lemma toDigitsCore_all_digits : ∀ (f n : Nat) (l : List Char), l.all isDigitChar = true →
    (Nat.toDigitsCore 10 f n l).all isDigitChar = true := by
  intro f
  induction f with
  | zero => intro n l hl; simpa [Nat.toDigitsCore] using hl
  | succ f ih =>
    intro n l hl
    have hd : isDigitChar (Nat.digitChar (n % 10)) = true :=
      digitChar_digit (n % 10) (Nat.mod_lt n (by decide))
    simp only [Nat.toDigitsCore]
    split
    · simp [List.all_cons, hd, hl]
    · exact ih _ _ (by simp [List.all_cons, hd, hl])

lemma repr_all_digits (n : Nat) : (Nat.repr n).data.all isDigitChar = true := by
  have h := toDigitsCore_all_digits (n + 1) n [] rfl
  simpa [Nat.repr, Nat.toDigits, List.asString] using h

lemma fourDigitsL_of (l : List Char) (h4 : l.length = 4) (hdig : l.all isDigitChar = true) :
    fourDigitsL l = true := by
  rcases l with _ | ⟨a, _ | ⟨b, _ | ⟨c, _ | ⟨d, _ | ⟨e, tl⟩⟩⟩⟩⟩ <;>
    simp_all [fourDigitsL, List.all_cons]

lemma padStart4_repr (n : Nat) (hn : n < 10000) :
    fourDigitsL (padStart4 (Nat.repr n)).data = true := by
  have hlen : (Nat.repr n).length ≤ 4 := Nat.repr_length n 4 (by decide) (by omega)
  have hdig : (Nat.repr n).data.all isDigitChar = true := repr_all_digits n
  have hlen2 : (Nat.repr n).data.length = (Nat.repr n).length := rfl
  unfold padStart4
  split
  · refine fourDigitsL_of _ ?_ hdig
    omega
  · refine fourDigitsL_of _ ?_ ?_
    · simp only [String.data_append, List.length_append, List.length_replicate]
      omega
    · simp only [String.data_append]
      rw [List.all_append]
      have hrep : (List.replicate (4 - (Nat.repr n).length) '0').all isDigitChar = true := by
        simp only [List.all_eq_true]
        intro x hx
        rw [List.eq_of_mem_replicate hx]
        decide
      simp [hrep, hdig]

lemma twoDigitsL_shape (l : List Char) (h : twoDigitsL l = true) :
    ∃ a b, l = [a, b] ∧ isDigitChar a = true ∧ isDigitChar b = true := by
  unfold twoDigitsL at h
  split at h
  · rename_i a b
    rw [Bool.and_eq_true] at h
    exact ⟨a, b, rfl, h.1, h.2⟩
  · simp at h

lemma validTimeChars_shape (l : List Char) (h : validTimeChars l = true) :
    ∃ a b c d e, l = [a, b, c, d, e] := by
  unfold validTimeChars at h
  split at h
  · rename_i a b c d e
    exact ⟨a, b, c, d, e, rfl⟩
  · simp at h

lemma validDateChars_shape (l : List Char) (h : validDateChars l = true) :
    ∃ y1 y2 y3 y4 s1 mo1 mo2 s2 d1 d2, l = [y1, y2, y3, y4, s1, mo1, mo2, s2, d1, d2] := by
  unfold validDateChars at h
  split at h
  · rename_i y1 y2 y3 y4 s1 mo1 mo2 s2 d1 d2
    exact ⟨y1, y2, y3, y4, s1, mo1, mo2, s2, d1, d2, rfl⟩
  · simp at h

lemma fourDigitsL_shape (l : List Char) (h : fourDigitsL l = true) :
    ∃ a b c d, l = [a, b, c, d] ∧ isDigitChar a = true ∧ isDigitChar b = true
      ∧ isDigitChar c = true ∧ isDigitChar d = true := by
  unfold fourDigitsL at h
  split at h
  · rename_i a b c d
    simp only [Bool.and_eq_true] at h
    exact ⟨a, b, c, d, rfl, h.1.1.1, h.1.1.2, h.1.2, h.2⟩
  · simp at h

lemma validTimeChars_cat (t1 t2 : List Char) (h1 : twoDigitsL t1 = true)
    (h2 : twoDigitsL t2 = true) (hv1 : twoValL t1 < 24) (hv2 : twoValL t2 < 60) :
    validTimeChars (t1 ++ ':' :: t2) = true := by
  obtain ⟨a, b, rfl, ha, hb⟩ := twoDigitsL_shape t1 h1
  obtain ⟨d, e, rfl, hd, he⟩ := twoDigitsL_shape t2 h2
  simp only [twoValL] at hv1 hv2
  simp only [List.cons_append, List.nil_append]
  unfold validTimeChars
  simp only [Bool.and_eq_true, decide_eq_true_eq, beq_iff_eq]
  exact ⟨⟨⟨⟨⟨⟨ha, hb⟩, by trivial⟩, hd⟩, he⟩, hv1⟩, hv2⟩

lemma validDateChars_cat (yl ml dl : List Char) (hy : fourDigitsL yl = true)
    (hm1 : twoDigitsL ml = true) (hd1 : twoDigitsL dl = true)
    (hmlo : 1 ≤ twoValL ml) (hmhi : twoValL ml ≤ 12)
    (hdlo : 1 ≤ twoValL dl) (hdhi : twoValL dl ≤ 31) :
    validDateChars (yl ++ '-' :: (ml ++ '-' :: dl)) = true := by
  obtain ⟨a, b, c, d, rfl, ha, hb, hc, hd⟩ := fourDigitsL_shape yl hy
  obtain ⟨m1, m2, rfl, hm2, hm3⟩ := twoDigitsL_shape ml hm1
  obtain ⟨d1, d2, rfl, hd2, hd3⟩ := twoDigitsL_shape dl hd1
  simp only [twoValL] at hmlo hmhi hdlo hdhi
  simp only [List.cons_append, List.nil_append]
  unfold validDateChars
  simp only [Bool.and_eq_true, decide_eq_true_eq, beq_iff_eq]
  exact ⟨⟨⟨⟨⟨⟨⟨⟨⟨⟨⟨⟨⟨ha, hb⟩, hc⟩, hd⟩, by trivial⟩, by trivial⟩, hm2⟩, hm3⟩, hd2⟩, hd3⟩,
    hmlo⟩, hmhi⟩, hdlo⟩, hdhi⟩

lemma validISOChars_build (dl tl sl ol : List Char)
    (hd : validDateChars dl = true) (ht : validTimeChars tl = true)
    (hs2 : twoDigitsL sl = true) (hsv : twoValL sl < 60)
    (ho : validOffsetChars ol = true) :
    validISOChars (dl ++ 'T' :: (tl ++ ':' :: (sl ++ ol))) = true
      ∧ (((dl ++ 'T' :: (tl ++ ':' :: (sl ++ ol))).drop 14).take 2).length = 2
      ∧ (((dl ++ 'T' :: (tl ++ ':' :: (sl ++ ol))).drop 14).take 2).all isDigitChar
          = true := by
  obtain ⟨y1, y2, y3, y4, s1, mo1, mo2, s2, d1, d2, rfl⟩ := validDateChars_shape dl hd
  obtain ⟨h1, h2, c, m1, m2, rfl⟩ := validTimeChars_shape tl ht
  obtain ⟨sc1, sc2, rfl, hsc1, hsc2⟩ := twoDigitsL_shape sl hs2
  simp only [twoValL] at hsv
  have htparts := ht
  simp only [validTimeChars, Bool.and_eq_true, decide_eq_true_eq, beq_iff_eq] at htparts
  simp only [List.cons_append, List.nil_append]
  refine ⟨?_, rfl, ?_⟩
  · unfold validISOChars
    simp only [Bool.and_eq_true, decide_eq_true_eq, beq_iff_eq]
    exact ⟨⟨⟨⟨⟨⟨⟨hd, by trivial⟩, ht⟩, by trivial⟩, hsc1⟩, hsc2⟩, hsv⟩, ho⟩
  · simp only [List.drop_succ_cons, List.drop_zero, List.take_succ_cons, List.take_zero,
      List.all_cons, List.all_nil, Bool.and_eq_true]
    exact ⟨htparts.1.1.1.2, htparts.1.1.2, by trivial⟩

lemma validOffset_getET (oD oJ : Int) : validOffsetChars (getETOffset oD oJ).data = true := by
  unfold getETOffset
  split
  · decide
  · decide

lemma instant_ok_5 (ds tm off : String) (hd : validDateChars ds.data = true)
    (ht : validTimeChars tm.data = true) (ho : validOffsetChars off.data = true) :
    validISOInstant (ds ++ "T" ++ tm ++ ":00" ++ off) = true
      ∧ minuteFieldTwoDigits (ds ++ "T" ++ tm ++ ":00" ++ off) = true := by
  have hdata : (ds ++ "T" ++ tm ++ ":00" ++ off).data
      = ds.data ++ 'T' :: (tm.data ++ ':' :: (['0', '0'] ++ off.data)) := by
    simp only [String.data_append]
    simp [List.append_assoc]
  have hb := validISOChars_build ds.data tm.data ['0', '0'] off.data hd ht (by decide)
    (by decide) ho
  unfold validISOInstant minuteFieldTwoDigits
  rw [hdata]
  refine ⟨hb.1, ?_⟩
  rw [hb.2.1, hb.2.2]
  decide

lemma instant_ok_7 (ds p1 p2 off : String) (hd : validDateChars ds.data = true)
    (h1 : twoDigitsL p1.data = true) (hv1 : twoValL p1.data < 24)
    (h2 : twoDigitsL p2.data = true) (hv2 : twoValL p2.data < 60)
    (ho : validOffsetChars off.data = true) :
    validISOInstant (ds ++ "T" ++ p1 ++ ":" ++ p2 ++ ":00" ++ off) = true
      ∧ minuteFieldTwoDigits (ds ++ "T" ++ p1 ++ ":" ++ p2 ++ ":00" ++ off) = true := by
  have ht : validTimeChars (p1.data ++ ':' :: p2.data) = true :=
    validTimeChars_cat p1.data p2.data h1 h2 hv1 hv2
  have hdata : (ds ++ "T" ++ p1 ++ ":" ++ p2 ++ ":00" ++ off).data
      = ds.data ++ 'T' :: ((p1.data ++ ':' :: p2.data) ++ ':' :: (['0', '0'] ++ off.data)) := by
    simp only [String.data_append]
    simp [List.append_assoc]
  have hb := validISOChars_build ds.data (p1.data ++ ':' :: p2.data) ['0', '0'] off.data
    hd ht (by decide) (by decide) ho
  unfold validISOInstant minuteFieldTwoDigits
  rw [hdata]
  refine ⟨hb.1, ?_⟩
  rw [hb.2.1, hb.2.2]
  decide

lemma instant_ok_formatNY (c : NYComponents)
    (hy : c.year < 10000) (hmo1 : 1 ≤ c.month) (hmo2 : c.month ≤ 12)
    (hdo1 : 1 ≤ c.dayOfMonth) (hdo2 : c.dayOfMonth ≤ 31)
    (hhr : c.hour < 24) (hmi : c.minute < 60) (hsec : c.second < 60)
    (ho : validOffsetChars c.offset.data = true) :
    validISOInstant (formatNY c) = true ∧ minuteFieldTwoDigits (formatNY c) = true := by
  have hy4 := padStart4_repr c.year hy
  have hmo := padStart2_repr c.month (by omega)
  have hdd := padStart2_repr c.dayOfMonth (by omega)
  have hhh := padStart2_repr c.hour (by omega)
  have hmm2 := padStart2_repr c.minute (by omega)
  have hss := padStart2_repr c.second (by omega)
  have hdate : validDateChars ((padStart4 (Nat.repr c.year)).data
      ++ '-' :: ((padStart2 (Nat.repr c.month)).data
        ++ '-' :: (padStart2 (Nat.repr c.dayOfMonth)).data)) = true :=
    validDateChars_cat _ _ _ hy4 hmo.1 hdd.1 (by rw [hmo.2]; omega) (by rw [hmo.2]; omega)
      (by rw [hdd.2]; omega) (by rw [hdd.2]; omega)
  have ht : validTimeChars ((padStart2 (Nat.repr c.hour)).data
      ++ ':' :: (padStart2 (Nat.repr c.minute)).data) = true :=
    validTimeChars_cat _ _ hhh.1 hmm2.1 (by rw [hhh.2]; omega) (by rw [hmm2.2]; omega)
  have hdata : (formatNY c).data = ((padStart4 (Nat.repr c.year)).data
      ++ '-' :: ((padStart2 (Nat.repr c.month)).data
        ++ '-' :: (padStart2 (Nat.repr c.dayOfMonth)).data))
      ++ 'T' :: (((padStart2 (Nat.repr c.hour)).data
        ++ ':' :: (padStart2 (Nat.repr c.minute)).data)
        ++ ':' :: ((padStart2 (Nat.repr c.second)).data ++ c.offset.data)) := by
    unfold formatNY
    simp only [String.data_append]
    simp [List.append_assoc]
  have hb := validISOChars_build _ _ _ _ hdate ht hss.1 (by rw [hss.2]; omega) ho
  unfold validISOInstant minuteFieldTwoDigits
  rw [hdata]
  refine ⟨hb.1, ?_⟩
  rw [hb.2.1, hb.2.2]
  decide

lemma setMinutes_getHours_lt (d : JSDate) (m : Nat) : (d.setMinutes m).getHours < 24 := by
  simp only [JSDate.setMinutes, mkJSDate, JSDate.getHours]
  omega

lemma setMinutes_getMinutes_lt (d : JSDate) (m : Nat) : (d.setMinutes m).getMinutes < 60 := by
  simp only [JSDate.setMinutes, mkJSDate, JSDate.getMinutes]
  omega

lemma endDate_ok (ds : String) (day : Nat) (ts : List String) (oD oJ : Int)
    (hds : validDateChars ds.data = true) :
    ∀ s, buildEndDate ds day ts oD oJ = some s →
      validISOInstant s = true ∧ minuteFieldTwoDigits s = true := by
  intro s hs
  unfold buildEndDate at hs
  by_cases hlen : ts.length > 0
  · rw [if_pos hlen] at hs
    dsimp only at hs
    revert hs
    generalize parseHM ((ts.getLast?).getD "") = hm
    generalize hE : JSDate.setMinutes (mkJSDate day (hm.1 * 60 + hm.2))
      ((mkJSDate day (hm.1 * 60 + hm.2)).getMinutes + 90) = E
    intro hs
    injection hs with hseq
    subst hseq
    have hH : E.getHours < 24 := by rw [← hE]; exact setMinutes_getHours_lt _ _
    have hM : E.getMinutes < 60 := by rw [← hE]; exact setMinutes_getMinutes_lt _ _
    obtain ⟨hA1, hA2⟩ := padStart2_repr E.getHours (by omega)
    obtain ⟨hB1, hB2⟩ := padStart2_repr E.getMinutes (by omega)
    exact instant_ok_7 ds _ _ _ hds hA1 (by rw [hA2]; omega) hB1 (by rw [hB2]; omega)
      (validOffset_getET oD oJ)
  · rw [if_neg hlen] at hs
    exact Option.noConfusion hs

/-- Claim C4: for every event whose stored date is a valid calendar
string and whose set-times are HH:MM clock strings, and for a zone
conversion yielding in-range calendar components, the start instant
and any produced end instant are valid ISO-8601 strings with an
explicit offset, and their minute field is zero-padded to exactly two
digit characters. -/
theorem c4_iso_output (ds : String) (day : Nat) (ts : List String) (oD oJ : Int)
    (conv : JSDate → NYComponents)
    (hds : validDateChars ds.data = true)
    (hts : ∀ t ∈ ts, validHHMM t = true)
    (hconv : ∀ d : JSDate, (conv d).year < 10000
      ∧ 1 ≤ (conv d).month ∧ (conv d).month ≤ 12
      ∧ 1 ≤ (conv d).dayOfMonth ∧ (conv d).dayOfMonth ≤ 31
      ∧ (conv d).hour < 24 ∧ (conv d).minute < 60 ∧ (conv d).second < 60
      ∧ validOffsetChars (conv d).offset.data = true) :
    (validISOInstant (buildStartDate ds day ts oD oJ conv) = true
        ∧ minuteFieldTwoDigits (buildStartDate ds day ts oD oJ conv) = true)
      ∧ ∀ s, buildEndDate ds day ts oD oJ = some s →
          validISOInstant s = true ∧ minuteFieldTwoDigits s = true := by
  refine ⟨?_, endDate_ok ds day ts oD oJ hds⟩
  unfold buildStartDate
  by_cases hlen : ts.length > 0
  · rw [if_pos hlen]
    have hmem : ts.headD "" ∈ ts := by
      cases ts with
      | nil => simp at hlen
      | cons a l => simp [List.headD]
    exact instant_ok_5 ds (ts.headD "") (getETOffset oD oJ) hds (hts _ hmem)
      (validOffset_getET oD oJ)
  · rw [if_neg hlen]
    obtain ⟨hy, hmo1, hmo2, hdo1, hdo2, hhr, hmi, hsec, ho⟩ := hconv (mkJSDate day 0)
    exact instant_ok_formatNY _ hy hmo1 hmo2 hdo1 hdo2 hhr hmi hsec ho

/-- Witness for C4 at a concrete event with a valid date, one valid
set-time and an in-range zone conversion. -/
theorem c4_witness :
    (validDateChars "2025-01-15".data = true
        ∧ (∀ t ∈ (["20:00"] : List String), validHHMM t = true)
        ∧ (∀ d : JSDate,
            ((fun _ => (⟨2025, 1, 15, 0, 0, 0, "-05:00"⟩ : NYComponents)) d).year < 10000))
      ∧ ((validISOInstant (buildStartDate "2025-01-15" 20103 ["20:00"] 300 300
            (fun _ => ⟨2025, 1, 15, 0, 0, 0, "-05:00"⟩)) = true
          ∧ minuteFieldTwoDigits (buildStartDate "2025-01-15" 20103 ["20:00"] 300 300
              (fun _ => ⟨2025, 1, 15, 0, 0, 0, "-05:00"⟩)) = true)
        ∧ ∀ s, buildEndDate "2025-01-15" 20103 ["20:00"] 300 300 = some s →
            validISOInstant s = true ∧ minuteFieldTwoDigits s = true) :=
  ⟨⟨by decide, by decide, fun _ => (by decide : (2025 : Nat) < 10000)⟩,
    c4_iso_output "2025-01-15" 20103 ["20:00"] 300 300
      (fun _ => ⟨2025, 1, 15, 0, 0, 0, "-05:00"⟩) (by decide) (by decide)
      (fun _ => ⟨(by decide : (2025 : Nat) < 10000), (by decide : 1 ≤ (1 : Nat)),
        (by decide : (1 : Nat) ≤ 12), (by decide : 1 ≤ (15 : Nat)),
        (by decide : (15 : Nat) ≤ 31), (by decide : (0 : Nat) < 24),
        (by decide : (0 : Nat) < 60), (by decide : (0 : Nat) < 60),
        (by decide : validOffsetChars "-05:00".data = true)⟩)⟩

example : parseHM "21:30" = (21, 30) := by decide
example : parseHM "23:15" = (23, 15) := by decide
example : getETOffset 240 300 = "-04:00" := by decide
example : buildEndDate "2025-01-15" 20103 ["20:00", "21:30"] 300 300 =
    some "2025-01-15T23:00:00-05:00" := by decide
example : buildEndDate "2025-01-15" 20103 ["23:15"] 300 300 =
    some "2025-01-15T00:45:00-05:00" := by decide
example : moreDates [⟨"a", 20000⟩, ⟨"b", 20010⟩, ⟨"c", 20040⟩]
    (20000 * msPerDay + 3600000) 30 "a" = [⟨"b", 20010⟩] := by decide
example : moreDates [⟨"past", 19990⟩] (20000 * msPerDay) 30 "x" = [] := by decide
example : claimedWindowSublist [⟨"past", 19990⟩] (20000 * msPerDay) 30 "x" =
    [⟨"past", 19990⟩] := by decide
